import Mathlib

/-!
Verification development for the logistics-optimization data-marshaling
module: a shallow embedding of
`src/logistics optimization/data/load_locations_json.py` and
`src/logistics optimization/data/save_locations_json.py`.

The embedding starts at the parsed JSON document (a `JValue`): file
reading and textual JSON decoding (the `FileNotFoundError` and
`JSONDecodeError` paths, lines 49-60 of the loader) are below the level
the properties under study live at, so `load_locations_from_json` here
takes the parsed document.  Python dictionaries are modeled as
association lists with first-match lookup (JSON parsing yields unique
keys), Python floats as rationals, and Python exceptions as `Except`
errors carrying the fields that the source interpolates into the
exception message.  Logger calls are modeled as explicit log-event
lists so that warning/error/info-level diagnostics are observable.
-/

/-- A parsed JSON value, as produced by Python's `json.load`. -/
inductive JValue where
  | jnull : JValue
  | jbool : Bool → JValue
  | jnum : Rat → JValue
  | jstr : String → JValue
  | jarr : List JValue → JValue
  | jobj : List (String × JValue) → JValue

/-- Python dict lookup on an association list (first match wins; JSON
objects parsed by Python have unique keys). Models both `key in d` and
`d[key]` / `d.get(key)`. -/
def lookupDict {α : Type} : List (String × α) → String → Option α
  | [], _ => none
  | (k, v) :: rest, key => if k = key then some v else lookupDict rest key

/-- Digits of a numeral to its value, most significant first. -/
def digitsToNat (ds : List Char) : Nat :=
  ds.foldl (fun acc c => 10 * acc + (c.toNat - 48)) 0

/-- An unsigned decimal mantissa: `D+ | D+ . D* | . D+`, returning the
value and the unconsumed characters. -/
def parseUnsignedDec (cs : List Char) : Option (Rat × List Char) :=
  let p := cs.span Char.isDigit
  match p.2 with
  | '.' :: r =>
    let q := r.span Char.isDigit
    if p.1.isEmpty && q.1.isEmpty then none
    else some ((digitsToNat p.1 : Rat)
        + (digitsToNat q.1 : Rat) / ((10 : Rat) ^ q.1.length), q.2)
  | _ =>
    if p.1.isEmpty then none
    else some ((digitsToNat p.1 : Rat), p.2)

/-- An optionally signed decimal integer (for the exponent part). -/
def parseSignedInt (cs : List Char) : Option (Int × List Char) :=
  match cs with
  | '-' :: r =>
    let p := r.span Char.isDigit
    if p.1.isEmpty then none else some (-(digitsToNat p.1 : Int), p.2)
  | '+' :: r =>
    let p := r.span Char.isDigit
    if p.1.isEmpty then none else some ((digitsToNat p.1 : Int), p.2)
  | _ =>
    let p := cs.span Char.isDigit
    if p.1.isEmpty then none else some ((digitsToNat p.1 : Int), p.2)

/-- Python's `float(s)` on a string, for the plain decimal forms
`[sign] mantissa [(e|E) [sign] digits]`.  (The exotic inputs Python
additionally accepts - surrounding whitespace, `inf`, `nan`,
underscore separators - are not modeled; `inf`/`nan` coordinates are
rejected by the loader's range check anyway, so every modeled claim is
insensitive to this.)  `none` models the `ValueError` raised on a
non-numeric string. -/
def parsePyFloat (s : String) : Option Rat :=
  let body : (Rat × List Char) → Option Rat := fun m =>
    match m.2 with
    | [] => some m.1
    | 'e' :: r =>
      match parseSignedInt r with
      | some (e, []) => some (m.1 * (10 : Rat) ^ e)
      | _ => none
    | 'E' :: r =>
      match parseSignedInt r with
      | some (e, []) => some (m.1 * (10 : Rat) ^ e)
      | _ => none
    | _ => none
  match s.data with
  | '-' :: cs => (parseUnsignedDec cs).bind fun m => (body m).map (fun q => -q)
  | '+' :: cs => (parseUnsignedDec cs).bind body
  | cs => (parseUnsignedDec cs).bind body

/-- Python's `float(x)` on a JSON value: numbers convert to themselves,
booleans to 0/1, numeric strings parse; everything else raises
(`TypeError`/`ValueError`), modeled as `none`. -/
def pyFloat : JValue → Option Rat
  | .jnum q => some q
  | .jbool b => some (if b then 1 else 0)
  | .jstr s => parsePyFloat s
  | _ => none

/-- The detail wrapped into the coordinate-level `ValueError` of loader
lines 92-104: either the `float()` conversion failed, or a range check
raised (the inner message carries the offending value, key and index,
re-raised wrapped by the `except` at line 103). -/
inductive CoordFailure where
  | notANumber : CoordFailure
  | invalidLatitude : Rat → String → Nat → CoordFailure
  | invalidLongitude : Rat → String → Nat → CoordFailure
deriving DecidableEq

/-- The `ValueError`s the loader raises, one constructor per `raise`
site, carrying the values interpolated into the message. -/
inductive LoadFailure where
  | rootNotDict : LoadFailure
  | noLocationsKey : LoadFailure
  | locationsNotDict : LoadFailure
  | keyNotList : String → LoadFailure
  | badLocation : String → Nat → LoadFailure
  | badCoordinate : String → Nat → CoordFailure → LoadFailure
  | noLogisticsCenters : LoadFailure
deriving DecidableEq

/-- The result of a successful load: a dict with exactly the keys
`logistics_centers`, `sales_outlets`, `customers` (inserted in that
order by the loop of lines 77-106), each a list of (lat, lon) pairs. -/
structure LocationSet where
  logistics_centers : List (Rat × Rat)
  sales_outlets : List (Rat × Rat)
  customers : List (Rat × Rat)
deriving DecidableEq

/-- Log events emitted by the loader. -/
inductive LogEvent where
  | warnMissing : String → LogEvent
  | infoSummary : Nat → Nat → Nat → LogEvent
deriving DecidableEq

/-- Loader lines 92-104: convert both entries with `float`, then check
the latitude range, then the longitude range; a conversion failure or a
range violation becomes the wrapped coordinate `ValueError`. -/
def validatePair (key : String) (i : Nat) (a b : JValue) :
    Except LoadFailure (Rat × Rat) :=
  match pyFloat a, pyFloat b with
  | some lat, some lon =>
    if ¬ (-90 ≤ lat ∧ lat ≤ 90) then
      .error (.badCoordinate key i (.invalidLatitude lat key i))
    else if ¬ (-180 ≤ lon ∧ lon ≤ 180) then
      .error (.badCoordinate key i (.invalidLongitude lon key i))
    else .ok (lat, lon)
  | _, _ => .error (.badCoordinate key i .notANumber)

/-- Loader lines 88-104, one element: a location must be a 2-element
sequence, then its coordinates are validated. -/
def validateCoord (key : String) (i : Nat) (loc : JValue) :
    Except LoadFailure (Rat × Rat) :=
  match loc with
  | .jarr [a, b] => validatePair key i a b
  | _ => .error (.badLocation key i)

/-- The `for i, loc in enumerate(location_list)` loop of lines 87-105,
started at index `i`: the first failure aborts, otherwise the validated
`[lat, lon]` pairs are accumulated in order. -/
def validateFrom (key : String) : Nat → List JValue → Except LoadFailure (List (Rat × Rat))
  | _, [] => .ok []
  | i, loc :: rest =>
    match validateCoord key i loc with
    | .error e => .error e
    | .ok c =>
      match validateFrom key (i + 1) rest with
      | .error e => .error e
      | .ok cs => .ok (c :: cs)

/-- The whole per-key element loop, from index 0. -/
def validateLocList (key : String) (xs : List JValue) :
    Except LoadFailure (List (Rat × Rat)) :=
  validateFrom key 0 xs

/-- One iteration of the `for key in required_keys` loop (lines 77-106),
with its log output: an absent key logs a warning and yields the empty
list; a present non-list value raises; a present list is validated
element by element. -/
def processKeyRun (locs : List (String × JValue)) (key : String) :
    List LogEvent × Except LoadFailure (List (Rat × Rat)) :=
  match lookupDict locs key with
  | none => ([.warnMissing key], .ok [])
  | some v =>
    match v with
    | .jarr xs => ([], validateLocList key xs)
    | _ => ([], .error (.keyNotList key))

/-- The result component of one key's processing. -/
def processKey (locs : List (String × JValue)) (key : String) :
    Except LoadFailure (List (Rat × Rat)) :=
  (processKeyRun locs key).2

/-- Loader lines 66-117 once the root is known to be a dict: the
`locations` key lookup and type check, the three-key loop in order
`logistics_centers`, `sales_outlets`, `customers`, the informational
count summary (logged at lines 109-111, before the minimum-requirement
check), and finally the emptiness check on `logistics_centers`. -/
def loadRunRoot (root : List (String × JValue)) :
    List LogEvent × Except LoadFailure LocationSet :=
  match lookupDict root "locations" with
  | some (.jobj locs) =>
    match processKeyRun locs "logistics_centers" with
    | (w1, .error e) => (w1, .error e)
    | (w1, .ok lc) =>
      match processKeyRun locs "sales_outlets" with
      | (w2, .error e) => (w1 ++ w2, .error e)
      | (w2, .ok so) =>
        match processKeyRun locs "customers" with
        | (w3, .error e) => (w1 ++ w2 ++ w3, .error e)
        | (w3, .ok cu) =>
          let logs := w1 ++ w2 ++ w3
              ++ [.infoSummary lc.length so.length cu.length]
          if lc.length = 0 then (logs, .error .noLogisticsCenters)
          else (logs, .ok (LocationSet.mk lc so cu))
  | some _ => ([], .error .locationsNotDict)
  | none => ([], .error .noLocationsKey)

/-- Loader lines 62-117 on the parsed document, with log output: the
root must be a dict (line 63), then `loadRunRoot` does the rest. -/
def loadRun (data : JValue) : List LogEvent × Except LoadFailure LocationSet :=
  match data with
  | .jobj root => loadRunRoot root
  | _ => ([], .error .rootNotDict)

/-- `load_locations_from_json`, result component. -/
def load_locations_from_json (data : JValue) : Except LoadFailure LocationSet :=
  (loadRun data).2

/-- The log events emitted by a load. -/
def loadLogs (data : JValue) : List LogEvent :=
  (loadRun data).1

/-- One iteration of the validator loop (lines 134-138): the key is
present and its value is a list. -/
def keyIsList (d : List (String × JValue)) (key : String) : Bool :=
  match lookupDict d key with
  | some (.jarr _) => true
  | _ => false

/-- `validate_locations_structure` (loader lines 120-140): a shallow
shape check - the candidate is a dict and each of the three required
keys is present and bound to a list.  Total, hence "never raises". -/
def validate_locations_structure (locations : JValue) : Bool :=
  match locations with
  | .jobj d =>
    keyIsList d "logistics_centers" && keyIsList d "sales_outlets" &&
      keyIsList d "customers"
  | _ => false

/-- The dict type the saver and the counter operate on: a Python dict
mapping keys to lists of JSON values (the shape the generator and the
loader both produce). -/
abbrev LocDict := List (String × List JValue)

/-- `d.get(key, [])` on such a dict. -/
def dictGetD (d : LocDict) (key : String) : List JValue :=
  match lookupDict d key with
  | some v => v
  | none => []

/-- The record returned by `get_location_counts`. -/
structure Counts where
  num_logistics_centers : Nat
  num_sales_outlets : Nat
  num_customers : Nat
deriving DecidableEq

/-- `get_location_counts` (loader lines 143-157): the length of each
key's list, defaulting to 0 when the key is absent. -/
def get_location_counts (locations : LocDict) : Counts :=
  Counts.mk (dictGetD locations "logistics_centers").length
    (dictGetD locations "sales_outlets").length
    (dictGetD locations "customers").length

/-- A dict of lists as the JSON value `json.dump` writes for it. -/
def locDictToJson (d : LocDict) : JValue :=
  .jobj (d.map (fun kv => (kv.1, .jarr kv.2)))

/-- Python truthiness of the saver's `generated_locations` argument:
`None` and the empty dict are falsy. -/
def pyFalsy (d : Option LocDict) : Bool :=
  match d with
  | none => true
  | some l => l.isEmpty

/-- The exception a failing `os.makedirs` raises. -/
inductive PyExc where
  | osError : PyExc
deriving DecidableEq

/-- The I/O environment of one `save_locations_json` call: whether
`os.makedirs` fails, whether the open/write inside the `try` fails, and
the two independently captured timestamps (`strftime` for the filename,
`isoformat` for the metadata). -/
structure SaveEnv where
  mkdirFails : Bool
  writeFails : Bool
  tsFile : String
  tsIso : String

/-- Log events emitted by the saver, one per logger call site. -/
inductive SaveLog where
  | warnNothing : SaveLog
  | errorSaving : SaveLog
  | infoSaved : String → SaveLog
deriving DecidableEq

/-- Observable outcome of one saver call: the returned value (or a
propagated exception), the file written (path and JSON content), and
the log events. -/
structure SaveResult where
  result : Except PyExc (Option String)
  written : Option (String × JValue)
  logs : List SaveLog

/-- `save_locations_json` (saver lines 8-52): falsy input logs a
warning and returns `None`; `os.makedirs` runs OUTSIDE the `try`
block (line 24), so its failure propagates as an exception; the
envelope build and file write sit inside the `try`, whose `except`
logs an error and returns `None`; on success the envelope - metadata
timestamp plus the three inline `len(....get(key, []))` counts, and the
locations dict verbatim - is written to
`output_dir/locations_<timestamp>.json` and that path is returned. -/
def save_locations_json (generated_locations : Option LocDict)
    (output_dir : String) (env : SaveEnv) : SaveResult :=
  if pyFalsy generated_locations then
    SaveResult.mk (.ok none) none [.warnNothing]
  else if env.mkdirFails then
    SaveResult.mk (.error .osError) none []
  else
    let locs := generated_locations.getD []
    let filepath := output_dir ++ "/locations_" ++ env.tsFile ++ ".json"
    let data_to_save : JValue := .jobj
      [("metadata", .jobj
          [("timestamp", .jstr env.tsIso),
           ("num_logistics_centers",
             .jnum ((dictGetD locs "logistics_centers").length : Rat)),
           ("num_sales_outlets",
             .jnum ((dictGetD locs "sales_outlets").length : Rat)),
           ("num_customers",
             .jnum ((dictGetD locs "customers").length : Rat))]),
       ("locations", locDictToJson locs)]
    if env.writeFails then
      SaveResult.mk (.ok none) none [.errorSaving]
    else
      SaveResult.mk (.ok (some filepath)) (some (filepath, data_to_save))
        [.infoSaved filepath]

/-- A coordinate within the latitude/longitude bounds. -/
def coordInRange (c : Rat × Rat) : Prop :=
  -90 ≤ c.1 ∧ c.1 ≤ 90 ∧ -180 ≤ c.2 ∧ c.2 ≤ 180

/-- The source list `xs` validates elementwise, in order, to `out`. -/
def orderedParse (key : String) (xs : List JValue) (out : List (Rat × Rat)) : Prop :=
  out.length = xs.length ∧
    ∀ j, (hx : j < xs.length) → (ho : j < out.length) →
      validateCoord key j (xs.get ⟨j, hx⟩) = .ok (out.get ⟨j, ho⟩)

/-- Provenance of one key of a successful load: either the key was
absent (yielding the empty list), or it mapped to a list whose elements
validated in order to the output. -/
def keyParsesTo (locs : List (String × JValue)) (key : String)
    (out : List (Rat × Rat)) : Prop :=
  (lookupDict locs key = none ∧ out = []) ∨
    (∃ xs, lookupDict locs key = some (.jarr xs) ∧
      validateLocList key xs = .ok out ∧ orderedParse key xs out)

/-- A LocationSet rendered back to the dict the saver is given (the
loader's result as a Python dict, keys in insertion order). -/
def coordToJson (c : Rat × Rat) : JValue :=
  .jarr [.jnum c.1, .jnum c.2]

/-- The loaded dict, as the saver's `generated_locations` argument. -/
def locSetToDict (L : LocationSet) : LocDict :=
  [("logistics_centers", L.logistics_centers.map coordToJson),
   ("sales_outlets", L.sales_outlets.map coordToJson),
   ("customers", L.customers.map coordToJson)]

/-! ## Helper lemmas about the loader -/

theorem validatePair_ok_range (key : String) (i : Nat) (a b : JValue)
    (c : Rat × Rat) (h : validatePair key i a b = .ok c) : coordInRange c := by
  unfold validatePair at h
  split at h
  · split at h
    · exact absurd h (by simp)
    · split at h
      · exact absurd h (by simp)
      · rename_i h1 h2
        cases h
        push_neg at h1 h2
        unfold coordInRange
        exact ⟨h1.1, h1.2, h2.1, h2.2⟩
  · exact absurd h (by simp)

theorem validateCoord_ok_range (key : String) (i : Nat) (loc : JValue)
    (c : Rat × Rat) (h : validateCoord key i loc = .ok c) : coordInRange c := by
  unfold validateCoord at h
  split at h
  · exact validatePair_ok_range _ _ _ _ _ h
  · exact absurd h (by simp)

theorem validateFrom_ok_range (key : String) (xs : List JValue) :
    ∀ (i : Nat) (out : List (Rat × Rat)), validateFrom key i xs = .ok out →
      ∀ c ∈ out, coordInRange c := by
  induction xs with
  | nil =>
    intro i out h c hc
    unfold validateFrom at h
    cases h
    cases hc
  | cons x t ih =>
    intro i out h c hc
    unfold validateFrom at h
    split at h
    · exact absurd h (by simp)
    · rename_i c0 hc0
      split at h
      · exact absurd h (by simp)
      · rename_i cs hcs
        cases h
        rcases List.mem_cons.mp hc with rfl | hc'
        · exact validateCoord_ok_range _ _ _ _ hc0
        · exact ih _ _ hcs c hc'

theorem validateFrom_ok_ordered (key : String) (xs : List JValue) :
    ∀ (i : Nat) (out : List (Rat × Rat)), validateFrom key i xs = .ok out →
      out.length = xs.length ∧
        ∀ j, (hx : j < xs.length) → (ho : j < out.length) →
          validateCoord key (i + j) (xs.get ⟨j, hx⟩) = .ok (out.get ⟨j, ho⟩) := by
  induction xs with
  | nil =>
    intro i out h
    unfold validateFrom at h
    cases h
    exact ⟨rfl, fun j hx => absurd hx (by simp)⟩
  | cons x t ih =>
    intro i out h
    unfold validateFrom at h
    split at h
    · exact absurd h (by simp)
    · rename_i c0 hc0
      split at h
      · exact absurd h (by simp)
      · rename_i cs hcs
        cases h
        obtain ⟨hlen, hpt⟩ := ih (i + 1) cs hcs
        refine ⟨by simp [hlen], ?_⟩
        intro j hx ho
        cases j with
        | zero => simpa using hc0
        | succ j' =>
          have hx' : j' < t.length := by simpa using hx
          have ho' : j' < cs.length := by simpa using ho
          have := hpt j' hx' ho'
          have harith : i + 1 + j' = i + (j' + 1) := by omega
          rw [harith] at this
          simpa using this

theorem processKey_ok_parses (locs : List (String × JValue)) (key : String)
    (out : List (Rat × Rat)) (h : processKey locs key = .ok out) :
    keyParsesTo locs key out := by
  unfold processKey processKeyRun at h
  split at h
  · rename_i hl
    simp only at h
    cases h
    exact Or.inl ⟨hl, rfl⟩
  · rename_i v hl
    split at h
    · rename_i xs
      simp only at h
      refine Or.inr ⟨xs, hl, h, ?_⟩
      obtain ⟨hlen, hpt⟩ := validateFrom_ok_ordered key xs 0 out h
      refine ⟨hlen, ?_⟩
      intro j hx ho
      simpa using hpt j hx ho
    · simp only at h
      exact absurd h (by simp)

theorem keyParsesTo_range (locs : List (String × JValue)) (key : String)
    (out : List (Rat × Rat)) (h : keyParsesTo locs key out) :
    ∀ c ∈ out, coordInRange c := by
  rcases h with ⟨_, rfl⟩ | ⟨xs, _, hv, _⟩
  · intro c hc
    cases hc
  · exact validateFrom_ok_range key xs 0 out hv

theorem load_ok_inv (data : JValue) (L : LocationSet)
    (h : load_locations_from_json data = .ok L) :
    ∃ root locs, data = .jobj root ∧
      lookupDict root "locations" = some (.jobj locs) ∧
      processKey locs "logistics_centers" = .ok L.logistics_centers ∧
      processKey locs "sales_outlets" = .ok L.sales_outlets ∧
      processKey locs "customers" = .ok L.customers ∧
      L.logistics_centers ≠ [] := by
  cases data with
  | jobj root =>
    have h2 : (loadRunRoot root).2 = Except.ok L := h
    clear h
    rename' h2 => h
    unfold loadRunRoot at h
    refine ⟨root, ?_⟩
    split at h
    · rename_i locs hroot
      refine ⟨locs, rfl, hroot, ?_⟩
      rcases hp1 : processKeyRun locs "logistics_centers" with ⟨w1, r1⟩
      rw [hp1] at h
      cases r1 with
      | error e => exact absurd h (by simp)
      | ok lc =>
        rcases hp2 : processKeyRun locs "sales_outlets" with ⟨w2, r2⟩
        rw [hp2] at h
        cases r2 with
        | error e => exact absurd h (by simp)
        | ok so =>
          rcases hp3 : processKeyRun locs "customers" with ⟨w3, r3⟩
          rw [hp3] at h
          cases r3 with
          | error e => exact absurd h (by simp)
          | ok cu =>
            simp only at h
            split at h
            · exact absurd h (by simp)
            · rename_i hlen
              simp only at h
              cases h
              refine ⟨by simp [processKey, hp1], by simp [processKey, hp2],
                by simp [processKey, hp3], ?_⟩
              simpa using hlen
    · rename_i hroot
      exact absurd h (by simp)
    · exact absurd h (by simp)
  | jnull => exact absurd h (by simp [load_locations_from_json, loadRun])
  | jbool b => exact absurd h (by simp [load_locations_from_json, loadRun])
  | jnum q => exact absurd h (by simp [load_locations_from_json, loadRun])
  | jstr s => exact absurd h (by simp [load_locations_from_json, loadRun])
  | jarr xs => exact absurd h (by simp [load_locations_from_json, loadRun])

theorem validateCoord_coordToJson (key : String) (i : Nat) (c : Rat × Rat)
    (hc : coordInRange c) : validateCoord key i (coordToJson c) = .ok c := by
  obtain ⟨h1, h2, h3, h4⟩ := hc
  simp only [coordToJson, validateCoord, validatePair, pyFloat]
  rw [if_neg (not_not_intro ⟨h1, h2⟩), if_neg (not_not_intro ⟨h3, h4⟩)]

theorem validateFrom_map_coordToJson (key : String) (cs : List (Rat × Rat)) :
    ∀ i, (∀ c ∈ cs, coordInRange c) →
      validateFrom key i (cs.map coordToJson) = .ok cs := by
  induction cs with
  | nil => intro i _; rfl
  | cons c t ih =>
    intro i h
    have hc := validateCoord_coordToJson key i c (h c (List.mem_cons_self c t))
    have ht := ih (i + 1) (fun x hx => h x (List.mem_cons_of_mem c hx))
    simp only [List.map_cons]
    unfold validateFrom
    rw [hc, ht]

theorem list_isEmpty_false {α : Type} (l : List α) (h : l ≠ []) :
    l.isEmpty = false := by
  cases l with
  | nil => exact absurd rfl h
  | cons a t => rfl

theorem save_success_written (locs : LocDict) (dir : String) (env : SaveEnv)
    (hne : locs ≠ []) (hmk : env.mkdirFails = false) (hwr : env.writeFails = false) :
    save_locations_json (some locs) dir env =
      SaveResult.mk (.ok (some (dir ++ "/locations_" ++ env.tsFile ++ ".json")))
        (some (dir ++ "/locations_" ++ env.tsFile ++ ".json", .jobj
          [("metadata", .jobj
              [("timestamp", .jstr env.tsIso),
               ("num_logistics_centers",
                 .jnum ((dictGetD locs "logistics_centers").length : Rat)),
               ("num_sales_outlets",
                 .jnum ((dictGetD locs "sales_outlets").length : Rat)),
               ("num_customers",
                 .jnum ((dictGetD locs "customers").length : Rat))]),
           ("locations", locDictToJson locs)]))
        [.infoSaved (dir ++ "/locations_" ++ env.tsFile ++ ".json")] := by
  unfold save_locations_json
  rw [if_neg, if_neg (by simp [hmk]), if_neg (by simp [hwr])]
  · rfl
  · simp [pyFalsy, list_isEmpty_false locs hne]

theorem load_envelope (meta : JValue) (L : LocationSet)
    (hr1 : ∀ c ∈ L.logistics_centers, coordInRange c)
    (hr2 : ∀ c ∈ L.sales_outlets, coordInRange c)
    (hr3 : ∀ c ∈ L.customers, coordInRange c)
    (hne : L.logistics_centers ≠ []) :
    load_locations_from_json (.jobj
      [("metadata", meta), ("locations", locDictToJson (locSetToDict L))]) =
      .ok L := by
  obtain ⟨lc, so, cu⟩ := L
  have hlc : validateLocList "logistics_centers" (lc.map coordToJson) = .ok lc :=
    validateFrom_map_coordToJson _ lc 0 hr1
  have hso : validateLocList "sales_outlets" (so.map coordToJson) = .ok so :=
    validateFrom_map_coordToJson _ so 0 hr2
  have hcu : validateLocList "customers" (cu.map coordToJson) = .ok cu :=
    validateFrom_map_coordToJson _ cu 0 hr3
  simp only [] at hne
  simp [load_locations_from_json, loadRun, loadRunRoot, processKeyRun,
    locSetToDict, locDictToJson, lookupDict, hlc, hso, hcu,
    List.length_eq_zero, hne]

/-! ## Claim theorems -/

/-- C3: postcondition of a successful load: when
`load_locations_from_json` returns without error, the result maps the
three keys `logistics_centers`, `sales_outlets`, `customers` (the
`LocationSet` fields) to lists of numeric pairs whose latitudes lie in
[-90, 90] and longitudes in [-180, 180], each list parsed elementwise,
in order, from the corresponding list of the source document (or
substituted empty for an absent key), and `logistics_centers` is
non-empty. -/
theorem load_success_postcondition (data : JValue) (L : LocationSet)
    (h : load_locations_from_json data = .ok L) :
    (∀ c ∈ L.logistics_centers, coordInRange c) ∧
    (∀ c ∈ L.sales_outlets, coordInRange c) ∧
    (∀ c ∈ L.customers, coordInRange c) ∧
    L.logistics_centers ≠ [] ∧
    (∃ root locs, data = .jobj root ∧
      lookupDict root "locations" = some (.jobj locs) ∧
      keyParsesTo locs "logistics_centers" L.logistics_centers ∧
      keyParsesTo locs "sales_outlets" L.sales_outlets ∧
      keyParsesTo locs "customers" L.customers) := by
  obtain ⟨root, locs, hdata, hroot, h1, h2, h3, hne⟩ := load_ok_inv data L h
  have k1 := processKey_ok_parses _ _ _ h1
  have k2 := processKey_ok_parses _ _ _ h2
  have k3 := processKey_ok_parses _ _ _ h3
  exact ⟨keyParsesTo_range _ _ _ k1, keyParsesTo_range _ _ _ k2,
    keyParsesTo_range _ _ _ k3, hne, root, locs, hdata, hroot, k1, k2, k3⟩

/-- A sample valid document for the witnesses. -/
def goodFile : JValue := .jobj
  [("metadata", .jobj [("timestamp", .jstr "t")]),
   ("locations", .jobj
     [("logistics_centers", .jarr [.jarr [.jnum 1, .jnum 2]]),
      ("sales_outlets", .jarr []),
      ("customers", .jarr [.jarr [.jnum (-5), .jnum 100]])])]

/-- The LocationSet `goodFile` loads to. -/
def goodSet : LocationSet := LocationSet.mk [(1, 2)] [] [(-5, 100)]

/-- A saver environment in which no I/O operation fails. -/
def envOk : SaveEnv := SaveEnv.mk false false "20240101_000000" "2024-01-01T00:00:00"

/-- Witness for C3 at the sample document. -/
theorem load_success_postcondition_witness :
    load_locations_from_json goodFile = .ok goodSet ∧
    ((∀ c ∈ goodSet.logistics_centers, coordInRange c) ∧
    (∀ c ∈ goodSet.sales_outlets, coordInRange c) ∧
    (∀ c ∈ goodSet.customers, coordInRange c) ∧
    goodSet.logistics_centers ≠ [] ∧
    (∃ root locs, goodFile = .jobj root ∧
      lookupDict root "locations" = some (.jobj locs) ∧
      keyParsesTo locs "logistics_centers" goodSet.logistics_centers ∧
      keyParsesTo locs "sales_outlets" goodSet.sales_outlets ∧
      keyParsesTo locs "customers" goodSet.customers)) :=
  ⟨rfl, load_success_postcondition goodFile goodSet rfl⟩

/-- C2: round-trip: if a document `F` loads successfully to `L`, then
saving `L` (as the dict the loader returned) with
`save_locations_json` writes a file whose path is returned, and loading
that file's content yields exactly `L` again - same coordinates for
each of the three keys, in the same order. -/
theorem load_save_load_roundtrip (F : JValue) (L : LocationSet) (dir : String)
    (env : SaveEnv) (hload : load_locations_from_json F = .ok L)
    (hmk : env.mkdirFails = false) (hwr : env.writeFails = false) :
    ∃ p j, (save_locations_json (some (locSetToDict L)) dir env).result = .ok (some p) ∧
      (save_locations_json (some (locSetToDict L)) dir env).written = some (p, j) ∧
      load_locations_from_json j = .ok L := by
  obtain ⟨root, locs, hdata, hroot, h1, h2, h3, hne⟩ := load_ok_inv F L hload
  have hr1 := keyParsesTo_range _ _ _ (processKey_ok_parses _ _ _ h1)
  have hr2 := keyParsesTo_range _ _ _ (processKey_ok_parses _ _ _ h2)
  have hr3 := keyParsesTo_range _ _ _ (processKey_ok_parses _ _ _ h3)
  have hsd : locSetToDict L ≠ [] := by simp [locSetToDict]
  rw [save_success_written (locSetToDict L) dir env hsd hmk hwr]
  exact ⟨_, _, rfl, rfl, load_envelope _ L hr1 hr2 hr3 hne⟩

/-- Witness for C2 at the sample document. -/
theorem load_save_load_roundtrip_witness :
    load_locations_from_json goodFile = .ok goodSet ∧
    (∃ p j, (save_locations_json (some (locSetToDict goodSet)) "out" envOk).result =
        .ok (some p) ∧
      (save_locations_json (some (locSetToDict goodSet)) "out" envOk).written =
        some (p, j) ∧
      load_locations_from_json j = .ok goodSet) :=
  ⟨rfl, load_save_load_roundtrip goodFile goodSet "out" envOk rfl rfl rfl⟩

/-- C4: a document whose `locations` object maps `logistics_centers` to
the empty list always fails; when the other two keys validate the error
is the "at least one logistics center is required" one
(`noLogisticsCenters`), and the emptiness check runs only after the
structural validation of all keys: a structurally invalid
`sales_outlets` (or `customers`) reports its own structural error
instead. -/
theorem empty_logistics_centers_fails (root locs : List (String × JValue))
    (hroot : lookupDict root "locations" = some (.jobj locs))
    (hlc : lookupDict locs "logistics_centers" = some (.jarr [])) :
    (∃ e, load_locations_from_json (.jobj root) = .error e) ∧
    (∀ so cu, processKey locs "sales_outlets" = .ok so →
      processKey locs "customers" = .ok cu →
      load_locations_from_json (.jobj root) = .error .noLogisticsCenters) ∧
    (∀ e, processKey locs "sales_outlets" = .error e →
      load_locations_from_json (.jobj root) = .error e) ∧
    (∀ so e, processKey locs "sales_outlets" = .ok so →
      processKey locs "customers" = .error e →
      load_locations_from_json (.jobj root) = .error e) := by
  have key0 : processKeyRun locs "logistics_centers" = ([], .ok []) := by
    simp [processKeyRun, hlc, validateLocList, validateFrom]
  rcases hp2 : processKeyRun locs "sales_outlets" with ⟨w2, r2⟩
  rcases hp3 : processKeyRun locs "customers" with ⟨w3, r3⟩
  have hpk2 : processKey locs "sales_outlets" = r2 := by simp [processKey, hp2]
  have hpk3 : processKey locs "customers" = r3 := by simp [processKey, hp3]
  cases r2 with
  | error e2 =>
    have hload : load_locations_from_json (.jobj root) = .error e2 := by
      simp [load_locations_from_json, loadRun, loadRunRoot, hroot, key0, hp2]
    refine ⟨⟨e2, hload⟩, ?_, ?_, ?_⟩
    · intro so cu hso _
      rw [hpk2] at hso
      exact Except.noConfusion hso
    · intro e he
      rw [hpk2] at he
      injection he with h'
      rw [← h']
      exact hload
    · intro so e hso _
      rw [hpk2] at hso
      exact Except.noConfusion hso
  | ok so2 =>
    cases r3 with
    | error e3 =>
      have hload : load_locations_from_json (.jobj root) = .error e3 := by
        simp [load_locations_from_json, loadRun, loadRunRoot, hroot, key0, hp2, hp3]
      refine ⟨⟨e3, hload⟩, ?_, ?_, ?_⟩
      · intro so cu _ hcu
        rw [hpk3] at hcu
        exact Except.noConfusion hcu
      · intro e he
        rw [hpk2] at he
        exact Except.noConfusion he
      · intro so e _ hcu
        rw [hpk3] at hcu
        injection hcu with h'
        rw [← h']
        exact hload
    | ok cu3 =>
      have hload : load_locations_from_json (.jobj root) =
          .error .noLogisticsCenters := by
        simp [load_locations_from_json, loadRun, loadRunRoot, hroot, key0, hp2, hp3]
      refine ⟨⟨_, hload⟩, ?_, ?_, ?_⟩
      · intro so cu _ _
        exact hload
      · intro e he
        rw [hpk2] at he
        exact Except.noConfusion he
      · intro so e _ hcu
        rw [hpk3] at hcu
        exact Except.noConfusion hcu

/-- A document with an empty `logistics_centers` list and valid other
keys, for the C4 witness. -/
def emptyLcFile : List (String × JValue) :=
  [("locations", .jobj
     [("logistics_centers", .jarr []),
      ("sales_outlets", .jarr [.jarr [.jnum 3, .jnum 4]]),
      ("customers", .jarr [])])]

/-- The `locations` object of `emptyLcFile`. -/
def emptyLcLocs : List (String × JValue) :=
  [("logistics_centers", .jarr []),
   ("sales_outlets", .jarr [.jarr [.jnum 3, .jnum 4]]),
   ("customers", .jarr [])]

/-- Witness for C4 at a concrete document. -/
theorem empty_logistics_centers_fails_witness :
    lookupDict emptyLcFile "locations" = some (.jobj emptyLcLocs) ∧
    lookupDict emptyLcLocs "logistics_centers" = some (.jarr []) ∧
    load_locations_from_json (.jobj emptyLcFile) = .error .noLogisticsCenters :=
  ⟨rfl, rfl,
    (empty_logistics_centers_fails emptyLcFile emptyLcLocs rfl rfl).2.1
      [(3, 4)] [] rfl rfl⟩

/-- C5: a falsy `locations` argument (None or the empty dict) makes
`save_locations_json` log a warning and return None without raising,
and no file is written. -/
theorem falsy_locations_soft_return (locs : Option LocDict) (dir : String)
    (env : SaveEnv) (h : pyFalsy locs = true) :
    save_locations_json locs dir env =
      SaveResult.mk (.ok none) none [.warnNothing] := by
  unfold save_locations_json
  rw [if_pos h]

/-- Witness for C5 at both falsy inputs (None and the empty dict). -/
theorem falsy_locations_soft_return_witness :
    pyFalsy none = true ∧ pyFalsy (some ([] : LocDict)) = true ∧
    save_locations_json none "out" envOk =
      SaveResult.mk (.ok none) none [.warnNothing] ∧
    save_locations_json (some ([] : LocDict)) "anywhere" envOk =
      SaveResult.mk (.ok none) none [.warnNothing] :=
  ⟨rfl, rfl, falsy_locations_soft_return none "out" envOk rfl,
    falsy_locations_soft_return (some []) "anywhere" envOk rfl⟩

/-- C6: an absent required key is non-fatal: the loop substitutes the
empty list and emits a warning-level diagnostic for it; in particular a
document missing `sales_outlets` whose remaining keys validate (with a
non-empty `logistics_centers`) loads successfully with an empty
`sales_outlets` list, the missing-key warning among its log events. -/
theorem missing_key_substitutes_empty (locs : List (String × JValue)) :
    (∀ key, lookupDict locs key = none →
      processKeyRun locs key = ([.warnMissing key], .ok [])) ∧
    (∀ root lc cu, lookupDict root "locations" = some (.jobj locs) →
      lookupDict locs "sales_outlets" = none →
      processKey locs "logistics_centers" = .ok lc →
      processKey locs "customers" = .ok cu →
      lc ≠ [] →
      load_locations_from_json (.jobj root) = .ok (LocationSet.mk lc [] cu) ∧
        LogEvent.warnMissing "sales_outlets" ∈ loadLogs (.jobj root)) := by
  constructor
  · intro key h
    simp [processKeyRun, h]
  · intro root lc cu hroot hso hlc hcu hne
    rcases hp1 : processKeyRun locs "logistics_centers" with ⟨w1, r1⟩
    rcases hp3 : processKeyRun locs "customers" with ⟨w3, r3⟩
    have hso2 : processKeyRun locs "sales_outlets" = ([.warnMissing "sales_outlets"], .ok []) := by
      simp [processKeyRun, hso]
    rw [processKey, hp1] at hlc
    rw [processKey, hp3] at hcu
    simp only at hlc hcu
    subst hlc
    subst hcu
    constructor
    · simp [load_locations_from_json, loadRun, loadRunRoot, hroot, hp1, hso2, hp3,
        List.length_eq_zero, hne]
    · simp [loadLogs, loadRun, loadRunRoot, hroot, hp1, hso2, hp3,
        List.length_eq_zero, hne]

/-- A document missing `sales_outlets`, for the C6 witness. -/
def missingSoFile : List (String × JValue) :=
  [("locations", .jobj
     [("logistics_centers", .jarr [.jarr [.jnum 1, .jnum 2]]),
      ("customers", .jarr [])])]

/-- The `locations` object of `missingSoFile`. -/
def missingSoLocs : List (String × JValue) :=
  [("logistics_centers", .jarr [.jarr [.jnum 1, .jnum 2]]),
   ("customers", .jarr [])]

/-- Witness for C6 at a concrete document missing `sales_outlets`. -/
theorem missing_key_substitutes_empty_witness :
    lookupDict missingSoLocs "sales_outlets" = none ∧
    processKey missingSoLocs "logistics_centers" = .ok [(1, 2)] ∧
    processKey missingSoLocs "customers" = .ok [] ∧
    (load_locations_from_json (.jobj missingSoFile) =
        .ok (LocationSet.mk [(1, 2)] [] []) ∧
      LogEvent.warnMissing "sales_outlets" ∈ loadLogs (.jobj missingSoFile)) :=
  ⟨rfl, rfl, rfl,
    (missing_key_substitutes_empty missingSoLocs).2 missingSoFile [(1, 2)] []
      rfl rfl rfl rfl (by simp)⟩

theorem keyIsList_iff (d : List (String × JValue)) (key : String) :
    keyIsList d key = true ↔ ∃ xs, lookupDict d key = some (.jarr xs) := by
  unfold keyIsList
  rcases h : lookupDict d key with _ | v
  · simp
  · cases v <;> simp

/-- C7: `validate_locations_structure` is total (never raises) and
returns true exactly when the candidate is a dict in which each of
`logistics_centers`, `sales_outlets` and `customers` is present and
bound to a list; it is false when `logistics_centers` is the string
"not-a-list" and true when that value is the empty list, coordinate
contents being irrelevant. -/
theorem validate_locations_structure_spec :
    (∀ v : JValue, validate_locations_structure v = true ↔
      ∃ d, v = .jobj d ∧
        (∃ xs, lookupDict d "logistics_centers" = some (.jarr xs)) ∧
        (∃ xs, lookupDict d "sales_outlets" = some (.jarr xs)) ∧
        (∃ xs, lookupDict d "customers" = some (.jarr xs))) ∧
    validate_locations_structure (.jobj
      [("logistics_centers", .jstr "not-a-list"), ("sales_outlets", .jarr []),
       ("customers", .jarr [])]) = false ∧
    validate_locations_structure (.jobj
      [("logistics_centers", .jarr []), ("sales_outlets", .jarr []),
       ("customers", .jarr [])]) = true := by
  refine ⟨?_, rfl, rfl⟩
  intro v
  cases v with
  | jobj d =>
    simp only [validate_locations_structure, Bool.and_eq_true, keyIsList_iff,
      JValue.jobj.injEq]
    constructor
    · rintro ⟨⟨hA, hB⟩, hC⟩
      exact ⟨d, rfl, hA, hB, hC⟩
    · rintro ⟨d', hd, hA, hB, hC⟩
      cases hd
      exact ⟨⟨hA, hB⟩, hC⟩
  | jnull => simp [validate_locations_structure]
  | jbool b => simp [validate_locations_structure]
  | jnum q => simp [validate_locations_structure]
  | jstr s => simp [validate_locations_structure]
  | jarr xs => simp [validate_locations_structure]

/-- The testable-property document: a coordinate `[91, 0]`. -/
def badLatFile : JValue := .jobj
  [("locations", .jobj
     [("logistics_centers", .jarr [.jarr [.jnum 91, .jnum 0]]),
      ("sales_outlets", .jarr []),
      ("customers", .jarr [])])]

/-- C8: a coordinate whose latitude is outside [-90, 90] (or longitude
outside [-180, 180]) fails with the coordinate `ValueError` carrying
the offending value, the containing key and the zero-based index (the
range-check message, re-raised wrapped at line 103); the failure
propagates through the element loop from the first offending element;
concretely, loading the file with `[91, 0]` reports latitude 91 out of
range in `logistics_centers` at index 0. -/
theorem out_of_range_coordinate_error :
    (∀ (key : String) (i : Nat) (lat lon : Rat), ¬ (-90 ≤ lat ∧ lat ≤ 90) →
      validateCoord key i (.jarr [.jnum lat, .jnum lon]) =
        .error (.badCoordinate key i (.invalidLatitude lat key i))) ∧
    (∀ (key : String) (i : Nat) (lat lon : Rat),
      (-90 ≤ lat ∧ lat ≤ 90) → ¬ (-180 ≤ lon ∧ lon ≤ 180) →
      validateCoord key i (.jarr [.jnum lat, .jnum lon]) =
        .error (.badCoordinate key i (.invalidLongitude lon key i))) ∧
    (∀ (key : String) (i : Nat) (loc : JValue) (e : LoadFailure)
      (rest : List JValue), validateCoord key i loc = .error e →
      validateFrom key i (loc :: rest) = .error e) ∧
    load_locations_from_json badLatFile =
      .error (.badCoordinate "logistics_centers" 0
        (.invalidLatitude 91 "logistics_centers" 0)) := by
  refine ⟨?_, ?_, ?_, rfl⟩
  · intro key i lat lon h
    simp only [validateCoord, validatePair, pyFloat]
    rw [if_pos h]
  · intro key i lat lon h1 h2
    simp only [validateCoord, validatePair, pyFloat]
    rw [if_neg (not_not_intro h1), if_pos h2]
  · intro key i loc e rest h
    unfold validateFrom
    rw [h]

/-- Witness for C8 at latitude 91. -/
theorem out_of_range_coordinate_error_witness :
    ¬ (-90 ≤ (91 : Rat) ∧ (91 : Rat) ≤ 90) ∧
    validateCoord "logistics_centers" 0 (.jarr [.jnum 91, .jnum 0]) =
      .error (.badCoordinate "logistics_centers" 0
        (.invalidLatitude 91 "logistics_centers" 0)) :=
  ⟨by norm_num,
    out_of_range_coordinate_error.1 "logistics_centers" 0 91 0 (by norm_num)⟩

/-- C9: on a successful save, the three counts written into the
envelope's metadata are exactly the fields of the record
`get_location_counts` returns on the same input - the saver's inline
`len(....get(key, []))` computation refines the Counter. -/
theorem envelope_counts_refine_counter (locs : LocDict) (dir : String)
    (env : SaveEnv) (hne : locs ≠ []) (hmk : env.mkdirFails = false)
    (hwr : env.writeFails = false) :
    (save_locations_json (some locs) dir env).written =
      some (dir ++ "/locations_" ++ env.tsFile ++ ".json", .jobj
        [("metadata", .jobj
            [("timestamp", .jstr env.tsIso),
             ("num_logistics_centers",
               .jnum ((get_location_counts locs).num_logistics_centers : Rat)),
             ("num_sales_outlets",
               .jnum ((get_location_counts locs).num_sales_outlets : Rat)),
             ("num_customers",
               .jnum ((get_location_counts locs).num_customers : Rat))]),
         ("locations", locDictToJson locs)]) := by
  rw [save_success_written locs dir env hne hmk hwr]
  rfl

/-- Witness for C9 at a one-key dict (the absent keys count 0). -/
theorem envelope_counts_refine_counter_witness :
    ([("logistics_centers", [JValue.jarr [.jnum 0, .jnum 0]])] : LocDict) ≠ [] ∧
    (save_locations_json
        (some [("logistics_centers", [JValue.jarr [.jnum 0, .jnum 0]])])
        "out" envOk).written =
      some ("out" ++ "/locations_" ++ envOk.tsFile ++ ".json", .jobj
        [("metadata", .jobj
            [("timestamp", .jstr envOk.tsIso),
             ("num_logistics_centers", .jnum
               ((get_location_counts
                 [("logistics_centers", [JValue.jarr [.jnum 0, .jnum 0]])]).num_logistics_centers : Rat)),
             ("num_sales_outlets", .jnum
               ((get_location_counts
                 [("logistics_centers", [JValue.jarr [.jnum 0, .jnum 0]])]).num_sales_outlets : Rat)),
             ("num_customers", .jnum
               ((get_location_counts
                 [("logistics_centers", [JValue.jarr [.jnum 0, .jnum 0]])]).num_customers : Rat))]),
         ("locations", locDictToJson
           [("logistics_centers", [JValue.jarr [.jnum 0, .jnum 0]])])]) :=
  ⟨by simp, envelope_counts_refine_counter
    [("logistics_centers", [JValue.jarr [.jnum 0, .jnum 0]])] "out" envOk
    (by simp) rfl rfl⟩

/-- C10: the loader reads only the `locations` member of the parsed
root: two root objects agreeing on that member produce identical
outcomes (same result or same error, and even the same log events),
whatever their `metadata` says - metadata counts disagreeing with the
actual list lengths are never detected. -/
theorem load_depends_only_on_locations (root1 root2 : List (String × JValue))
    (h : lookupDict root1 "locations" = lookupDict root2 "locations") :
    load_locations_from_json (.jobj root1) = load_locations_from_json (.jobj root2) ∧
      loadRun (.jobj root1) = loadRun (.jobj root2) := by
  have hr : loadRun (.jobj root1) = loadRun (.jobj root2) := by
    show loadRunRoot root1 = loadRunRoot root2
    unfold loadRunRoot
    rw [h]
  exact ⟨congrArg Prod.snd hr, hr⟩

/-- Two roots for the C10 witness: same `locations`, metadata counts
that are absent in one and blatantly wrong in the other. -/
def rootLyingMeta : List (String × JValue) :=
  [("metadata", .jobj [("num_customers", .jnum 999)]),
   ("locations", .jobj
     [("logistics_centers", .jarr [.jarr [.jnum 1, .jnum 2]]),
      ("sales_outlets", .jarr []),
      ("customers", .jarr [])])]

/-- The same `locations` value under no metadata at all. -/
def rootNoMeta : List (String × JValue) :=
  [("locations", .jobj
     [("logistics_centers", .jarr [.jarr [.jnum 1, .jnum 2]]),
      ("sales_outlets", .jarr []),
      ("customers", .jarr [])])]

/-- Witness for C10: the lying metadata changes nothing. -/
theorem load_depends_only_on_locations_witness :
    lookupDict rootLyingMeta "locations" = lookupDict rootNoMeta "locations" ∧
    (load_locations_from_json (.jobj rootLyingMeta) =
        load_locations_from_json (.jobj rootNoMeta) ∧
      loadRun (.jobj rootLyingMeta) = loadRun (.jobj rootNoMeta)) :=
  ⟨rfl, load_depends_only_on_locations rootLyingMeta rootNoMeta rfl⟩

/-- A non-empty locations dict for the C1 counterexample. -/
def oneCenterDict : LocDict := [("logistics_centers", [.jarr [.jnum 0, .jnum 0]])]

/-- C1 counterexample: with a non-empty locations mapping, an I/O
failure in `os.makedirs` (which line 24 of the saver runs OUTSIDE the
`try` block) is NOT caught: the call raises to the caller instead of
returning None, refuting "no exception from either step ever
propagates". -/
theorem mkdir_failure_propagates :
    (save_locations_json (some oneCenterDict) "out"
        (SaveEnv.mk true false "20240101_000000" "2024-01-01T00:00:00")).result =
      .error .osError ∧
    (save_locations_json (some oneCenterDict) "out"
        (SaveEnv.mk true false "20240101_000000" "2024-01-01T00:00:00")).result ≠
      .ok none :=
  ⟨rfl, by simp [save_locations_json, oneCenterDict, pyFalsy]⟩

/-- C1 amended: for a non-empty (truthy) locations mapping, an I/O
failure inside the `try` block - the envelope serialization and file
write - is caught, logs an error-level diagnostic and returns None
with nothing written; and as long as `os.makedirs` itself succeeds, no
exception propagates to the caller.  (A failure of `os.makedirs`,
which runs outside the `try`, propagates - see the counterexample.) -/
theorem write_failure_caught (locs : LocDict) (dir : String) (env : SaveEnv)
    (hne : locs ≠ []) (hmk : env.mkdirFails = false) :
    (env.writeFails = true →
      save_locations_json (some locs) dir env =
        SaveResult.mk (.ok none) none [.errorSaving]) ∧
    (∃ r, (save_locations_json (some locs) dir env).result = .ok r) := by
  have hfals : pyFalsy (some locs) = false := by
    simp [pyFalsy, list_isEmpty_false locs hne]
  constructor
  · intro hwr
    unfold save_locations_json
    rw [if_neg (by simp [hfals]), if_neg (by simp [hmk]), if_pos hwr]
  · cases hwr : env.writeFails with
    | true =>
      refine ⟨none, ?_⟩
      unfold save_locations_json
      rw [if_neg (by simp [hfals]), if_neg (by simp [hmk]), if_pos hwr]
    | false =>
      refine ⟨some (dir ++ "/locations_" ++ env.tsFile ++ ".json"), ?_⟩
      rw [save_success_written locs dir env hne hmk hwr]

/-- Witness for the amended C1 at a concrete failing write. -/
theorem write_failure_caught_witness :
    oneCenterDict ≠ [] ∧
    ((SaveEnv.mk false true "20240101_000000" "2024-01-01T00:00:00").writeFails = true →
      save_locations_json (some oneCenterDict) "out"
          (SaveEnv.mk false true "20240101_000000" "2024-01-01T00:00:00") =
        SaveResult.mk (.ok none) none [.errorSaving]) ∧
    (∃ r, (save_locations_json (some oneCenterDict) "out"
        (SaveEnv.mk false true "20240101_000000" "2024-01-01T00:00:00")).result = .ok r) :=
  ⟨by simp [oneCenterDict],
    (write_failure_caught oneCenterDict "out"
      (SaveEnv.mk false true "20240101_000000" "2024-01-01T00:00:00")
      (by simp [oneCenterDict]) rfl).1,
    (write_failure_caught oneCenterDict "out"
      (SaveEnv.mk false true "20240101_000000" "2024-01-01T00:00:00")
      (by simp [oneCenterDict]) rfl).2⟩
